import Mathlib

/-!
Verification of the FPL-Prediction repository's specification claims.

Each Python function relevant to a claim is shallowly embedded as an
executable Lean definition translated from the source:
  * `Utils/json_flattner.py`   — `flatten_json`, `json_to_dataframe`
  * `Utils/retry.py`           — `retry_request` (sleep trace made explicit)
  * `Utils/http.py`            — `_raw_get`, `safe_get`
  * `Api_calls/get_available_gameweeks.py`
                               — `get_available_gameweeks`,
                                 `fetch_new_events_dataframe` (cursor model)
  * `app/api/dashboard/season_config.py` — `get_season_schema`, SQL builders
  * `app/api/dashboard/service.py`       — `get_league_standings` (guard + query)
  * `app/api/prediction/service.py`      — `calculate_predicted_points`,
                                 `get_budget_optimized_squad`
Machine floats are modelled as rationals; Python `round(x, 2)` is modelled
as rounding to the nearest multiple of 1/100.
-/

namespace FPL

/-! ## JSON values (`Utils/json_flattner.py`)

A Python JSON-like value: dicts become ordered association lists, lists
keep their order, and every non-dict non-list value is a primitive. -/

inductive Json where
  | obj : List (String × Json) → Json
  | arr : List Json → Json
  | str : String → Json
  | num : Int → Json
  | boolean : Bool → Json
  | null : Json
deriving Repr

/-- Python `dict(items)`: first occurrence fixes the key position, the last
occurrence fixes the value. -/
def dictInsert (acc : List (String × Json)) (kv : String × Json) :
    List (String × Json) :=
  if acc.any (fun p => p.1 = kv.1) then
    acc.map (fun p => if p.1 = kv.1 then (p.1, kv.2) else p)
  else acc ++ [kv]

def dictOf (items : List (String × Json)) : List (String × Json) :=
  items.foldl dictInsert []

mutual
/-- `flatten_json(obj, parent_key, sep)` from `Utils/json_flattner.py`:
dict entries recurse with key `parent_key + sep + k` (just `k` when
`parent_key` is empty), list items recurse with key
`parent_key + sep + str(i)`, and any other value becomes a single
`(parent_key, value)` item; each level returns `dict(items)`. -/
def flatten_json (obj : Json) (parent_key : String) (sep : String) :
    List (String × Json) :=
  match obj with
  | .obj kvs => dictOf (flattenPairs kvs parent_key sep)
  | .arr vs => dictOf (flattenElems vs 0 parent_key sep)
  | v => dictOf [(parent_key, v)]

def flattenPairs (kvs : List (String × Json)) (parent_key : String)
    (sep : String) : List (String × Json) :=
  match kvs with
  | [] => []
  | (k, v) :: rest =>
    flatten_json v (if parent_key = "" then k else parent_key ++ sep ++ k) sep
      ++ flattenPairs rest parent_key sep

def flattenElems (vs : List Json) (i : Nat) (parent_key : String)
    (sep : String) : List (String × Json) :=
  match vs with
  | [] => []
  | v :: rest =>
    flatten_json v (parent_key ++ sep ++ toString i) sep
      ++ flattenElems rest (i + 1) parent_key sep
end

/-- Column accumulation of `pandas.DataFrame(list_of_dicts)`: the union of
the rows' keys in order of first appearance. -/
def addCols (acc : List String) (ks : List String) : List String :=
  ks.foldl (fun a k => if k ∈ a then a else a ++ [k]) acc

def frameColumns (rows : List (List (String × Json))) : List String :=
  rows.foldl (fun a r => addCols a (r.map Prod.fst)) []

/-- The observable shape of the pandas frame built by `json_to_dataframe`:
its column list and its flattened rows. -/
structure Frame where
  columns : List String
  rows : List (List (String × Json))

/-- `json_to_dataframe(data)` from `Utils/json_flattner.py`: a list becomes
one row per item (each row `flatten_json(item)`), a dict becomes a single
row, and anything else raises `ValueError("Unsupported JSON structure")`. -/
def json_to_dataframe (data : Json) : Except String Frame :=
  match data with
  | .arr items =>
    let rows := items.map (fun it => flatten_json it "" ".")
    .ok ⟨frameColumns rows, rows⟩
  | .obj kvs =>
    let rows := [flatten_json (.obj kvs) "" "."]
    .ok ⟨frameColumns rows, rows⟩
  | _ => .error "Unsupported JSON structure"

/-! ## Retry utility (`Utils/retry.py`)

`retry_request(func, retries, backoff, jitter)` loops `attempt` over
`1..retries`; on success it returns `func()`'s value, on an exception it
re-raises if `attempt == retries` and otherwise sleeps
`backoff ** attempt` seconds (plus a jitter draw in `[0,1)` when enabled)
and retries.  `RETRYABLE_EXCEPTIONS` ends with bare `Exception`, so the
`except` clause catches every exception.

The embedding makes the effects observable: `op n` is the outcome of the
n-th invocation of `func`, `jitterDraw n` is the jitter drawn after the
n-th failed attempt, and the result records the final outcome, how many
times `func` ran, and the trace of sleep durations. -/

inductive ROutcome (E A : Type) where
  | ok : A → ROutcome E A
  | err : E → ROutcome E A
  | nothingReturned : ROutcome E A   -- `for` loop never entered (retries = 0)
deriving DecidableEq, Repr

structure RetryTrace (E A : Type) where
  result : ROutcome E A
  invocations : Nat
  sleeps : List ℚ
deriving DecidableEq, Repr

/-- The loop body of `retry_request`, with `attempt` the 1-indexed attempt
number and `remaining` the number of attempts still allowed. -/
def retryAux (E A : Type) (op : Nat → Except E A) (backoff : ℚ)
    (jitter : Bool) (jitterDraw : Nat → ℚ) (attempt : Nat) :
    Nat → RetryTrace E A
  | 0 => ⟨.nothingReturned, 0, []⟩
  | remaining + 1 =>
    match op attempt with
    | .ok a => ⟨.ok a, 1, []⟩
    | .error e =>
      if remaining = 0 then
        -- attempt == retries: re-raise the last exception, no further sleep
        ⟨.err e, 1, []⟩
      else
        let sleep_time : ℚ :=
          backoff ^ attempt + (if jitter then jitterDraw attempt else 0)
        let rest := retryAux E A op backoff jitter jitterDraw (attempt + 1) remaining
        ⟨rest.result, rest.invocations + 1, sleep_time :: rest.sleeps⟩

def retry_request (E A : Type) (op : Nat → Except E A) (retries : Nat)
    (backoff : ℚ) (jitter : Bool) (jitterDraw : Nat → ℚ) : RetryTrace E A :=
  retryAux E A op backoff jitter jitterDraw 1 retries

/-! ## HTTP layer (`Utils/http.py`) -/

/-- The FPL exception taxonomy of `Exceptions/fpl_exceptions.py`, restricted
to the kinds `_raw_get` raises; the payload is the offending status code. -/
inductive FPLError where
  | serverError : Nat → FPLError    -- FPLServerError (429/5xx, retryable)
  | clientError : Nat → FPLError    -- FPLClientError (4xx, non-retryable)
deriving DecidableEq, Repr

/-- `_raw_get(url)` classified by the response status code: 429 and
500/502/503/504 raise `FPLServerError`, any other 4xx raises
`FPLClientError`, and every other response is returned. -/
def _raw_get (status : Nat) : Except FPLError Nat :=
  if status = 429 ∨ status = 500 ∨ status = 502 ∨ status = 503 ∨ status = 504 then
    .error (.serverError status)
  else if 400 ≤ status ∧ status < 500 then
    .error (.clientError status)
  else
    .ok status

/-- `safe_get(url, retries, backoff)`: wraps `_raw_get` in `retry_request`
with `jitter=True`.  `statuses n` is the status code the server would
return on the n-th GET.  (The `requests.ConnectionError` / `requests.Timeout`
translation to `FPLNetworkError` lies outside this status-code model.) -/
def safe_get (statuses : Nat → Nat) (retries : Nat) (backoff : ℚ)
    (jitterDraw : Nat → ℚ) : RetryTrace FPLError Nat :=
  retry_request FPLError Nat (fun n => _raw_get (statuses n)) retries backoff
    true jitterDraw

/-! ## Gameweek discovery and the incremental cursor
(`Api_calls/get_available_gameweeks.py`, `Utils/state.py`)

`get_available_gameweeks` fetches `bootstrap-static`, reads
`payload["events"]` and returns `[e["id"] for e in events if e["finished"]
or e["data_checked"]]`; any exception inside the `try` is wrapped as
`GameweekDiscoveryError`.  The fetch outcome is a parameter: `.error`
models a failed request, `.ok none` a payload on which the `events`
access fails, `.ok (some events)` a well-formed payload. -/

structure Event where
  id : Nat
  finished : Bool
  data_checked : Bool
deriving DecidableEq, Repr

inductive GameweekDiscoveryError where
  | couldNotLoad : GameweekDiscoveryError
deriving DecidableEq, Repr

def get_available_gameweeks (fetched : Except Unit (Option (List Event))) :
    Except GameweekDiscoveryError (List Nat) :=
  match fetched with
  | .error _ => .error .couldNotLoad
  | .ok none => .error .couldNotLoad
  | .ok (some events) =>
    .ok ((events.filter (fun e => e.finished || e.data_checked)).map Event.id)

/-- The per-gameweek loop of `fetch_new_events_dataframe`: for each event id
in `to_fetch` in order, `fetch_event_live` either succeeds (`ok e = true`;
the frame is appended and `save_last_event(e)` sets the cursor to `e`) or
raises `APIRequestError` (`ok e = false`; the exception propagates and the
run aborts with the cursor as last saved).  Returns the list of gameweeks
fetched and written, and the final persisted cursor. -/
def fetchLoop (ok : Nat → Bool) : List Nat → Nat → List Nat × Nat
  | [], cursor => ([], cursor)
  | e :: rest, cursor =>
    if ok e then
      let r := fetchLoop ok rest e
      (e :: r.1, r.2)
    else ([], cursor)

/-- One run of `fetch_new_events_dataframe`: `available` is the discovery
result, `last = load_last_event()`, `to_fetch = [e for e in available if
e > last]`, then the fetch loop. -/
def fetch_new_events_run (available : List Nat) (ok : Nat → Bool)
    (last : Nat) : List Nat × Nat :=
  fetchLoop ok (available.filter (fun e => last < e)) last

/-- A sequence of incremental runs threaded through the persisted cursor
(`load_last_event` / `save_last_event`); each run's discovery list and
fetch outcomes are given, and a run that aborts leaves the cursor for the
next run. -/
def execRuns : Nat → List (List Nat × (Nat → Bool)) → Nat
  | cursor, [] => cursor
  | cursor, (available, ok) :: rest =>
    execRuns (fetch_new_events_run available ok cursor).2 rest

/-- All gameweeks successfully fetched and written across a sequence of
runs, in the order their `save_last_event` calls happened. -/
def writtenRuns : Nat → List (List Nat × (Nat → Bool)) → List Nat
  | _, [] => []
  | cursor, (available, ok) :: rest =>
    let r := fetch_new_events_run available ok cursor
    r.1 ++ writtenRuns r.2 rest

/-! ## Season schema (`app/api/dashboard/season_config.py`) -/

def CURRENT_SEASON : String := "2024-25"

def SEASONS_WITH_TEAMS : List String :=
  ["2019-20", "2020-21", "2021-22", "2022-23", "2023-24", "2024-25"]

def UNDERSTAT_SEASONS : List Nat :=
  [2016, 2017, 2018, 2019, 2020, 2021, 2022, 2023, 2024]

/-- Python `int(s)` for a nonnegative decimal string: `none` models the
`ValueError` raised on a non-numeric string. -/
def pyInt (s : String) : Option Nat :=
  if s.data ≠ [] ∧ s.data.all Char.isDigit then
    some (s.data.foldl (fun a c => a * 10 + (c.toNat - 48)) 0)
  else none

/-- `season.split("-")[0]`, modelled as the segment before the first dash. -/
def firstSeg (season : String) : String :=
  ⟨season.data.takeWhile (fun c => c ≠ '-')⟩

structure SeasonSchema where
  name : String
  is_historical : Bool
  table_fact : String
  table_players : String
  table_teams : String
  table_fixtures : String
  col_player_id : String
  col_player_table_id : String
  col_team_id : String
  col_gameweek : String
  col_team_name : String
  supports_teams : Bool
  supports_understat : Bool
  supports_standings : Bool
  supports_fixtures : Bool
deriving DecidableEq, Repr

/-- `get_season_schema(season)`: historical seasons (anything other than
`CURRENT_SEASON`) use the `fpl_*` tables with capability flags computed
from `SEASONS_WITH_TEAMS` / `UNDERSTAT_SEASONS` (`int(season.split("-")[0])`
falling back to 0 on `ValueError`); the current season uses the live
tables with all flags true. -/
def get_season_schema (season : String) : SeasonSchema :=
  if season ≠ CURRENT_SEASON then
    { name := season
      is_historical := true
      table_fact := "fpl_player_gameweeks"
      table_players := "fpl_season_players"
      table_teams := "fpl_season_teams"
      table_fixtures := "fpl_fixtures"
      col_player_id := "element_id"
      col_player_table_id := "element_id"
      col_team_id := "team_id"
      col_gameweek := "gameweek"
      col_team_name := "team_name"
      supports_teams := decide (season ∈ SEASONS_WITH_TEAMS)
      supports_understat :=
        decide ((pyInt (firstSeg season)).getD 0 ∈ UNDERSTAT_SEASONS)
      supports_standings := decide (season ∈ SEASONS_WITH_TEAMS)
      supports_fixtures := true }
  else
    { name := season
      is_historical := false
      table_fact := "fact_player_gameweeks"
      table_players := "players"
      table_teams := "teams"
      table_fixtures := "fixtures"
      col_player_id := "player_id"
      col_player_table_id := "id"
      col_team_id := "id"
      col_gameweek := "event"
      col_team_name := "name"
      supports_teams := true
      supports_understat := true
      supports_standings := true
      supports_fixtures := true }

/-- `build_season_filter(schema, table_alias)`: empty for the current
season, else an `AND <alias.>season = '<name>'` fragment. -/
def build_season_filter (schema : SeasonSchema) (table_alias : String) :
    String :=
  if !schema.is_historical then ""
  else
    (if table_alias = "" then "" else table_alias ++ ".") |>
      (fun pre => "AND " ++ pre ++ "season = \x27" ++ schema.name ++ "\x27")

/-! ## League standings (`app/api/dashboard/service.py`) -/

/-- One row of the standings table; only presence matters to the claims. -/
structure StandingRow where
  team_name : String
  points : Int
deriving DecidableEq, Repr

structure StandingsResponse where
  season : String
  standings : List StandingRow
deriving DecidableEq, Repr

/-- `get_league_standings(season)`: when the schema does not support
standings it returns `StandingsResponse(season=season, standings=[])`
before touching the database; otherwise it runs the fixtures aggregation
(abstracted as `rest`, which receives the schema). -/
def get_league_standings (rest : SeasonSchema → StandingsResponse)
    (season : String) : StandingsResponse :=
  let schema := get_season_schema season
  if !schema.supports_standings then ⟨season, []⟩
  else rest schema

/-- The `fpl_query` string built inside `get_league_standings`, with the
same interpolations (`schema.table_fixtures`, `build_season_filter
(schema, "")`, `schema.col_team_name`, `schema.table_teams`,
`schema.col_team_id`, `build_season_filter(schema, "t")`). -/
def standings_fpl_query (schema : SeasonSchema) : String :=
  let season_filter := build_season_filter schema ""
  "WITH MatchPts AS (\n" ++
  "    SELECT team_h as tid, team_h_score as gf, team_a_score as ga,\n" ++
  "        CASE WHEN team_h_score > team_a_score THEN 3 WHEN team_h_score = team_a_score THEN 1 ELSE 0 END as pts\n" ++
  "    FROM " ++ schema.table_fixtures ++ " WHERE finished = 1 " ++ season_filter ++ "\n" ++
  "    UNION ALL\n" ++
  "    SELECT team_a as tid, team_a_score as gf, team_h_score as ga,\n" ++
  "        CASE WHEN team_a_score > team_h_score THEN 3 WHEN team_a_score = team_h_score THEN 1 ELSE 0 END as pts\n" ++
  "    FROM " ++ schema.table_fixtures ++ " WHERE finished = 1 " ++ season_filter ++ "\n" ++
  ")\n" ++
  "SELECT \n" ++
  "    t." ++ schema.col_team_name ++ " as team_name,\n" ++
  "    COUNT(m.tid) as played,\n" ++
  "    SUM(CASE WHEN gf > ga THEN 1 ELSE 0 END) as wins,\n" ++
  "    SUM(CASE WHEN gf = ga THEN 1 ELSE 0 END) as draws,\n" ++
  "    SUM(CASE WHEN gf < ga THEN 1 ELSE 0 END) as losses,\n" ++
  "    SUM(gf) as goals_for,\n" ++
  "    SUM(ga) as goals_against,\n" ++
  "    SUM(gf) - SUM(ga) as goal_diff,\n" ++
  "    SUM(pts) as points\n" ++
  "FROM " ++ schema.table_teams ++ " t\n" ++
  "LEFT JOIN MatchPts m ON t." ++ schema.col_team_id ++ " = m.tid\n" ++
  "WHERE 1=1 " ++ build_season_filter schema "t" ++ "\n" ++
  "GROUP BY t." ++ schema.col_team_name ++ "\n" ++
  "ORDER BY points DESC, goal_diff DESC"

/-- Is `needle` a prefix of `haystack`? -/
def isPrefixChars : List Char → List Char → Bool
  | [], _ => true
  | _ :: _, [] => false
  | a :: s, b :: t => a = b && isPrefixChars s t

/-- Does `needle` occur as a contiguous substring of `haystack`? -/
def occursIn (needle : List Char) : List Char → Bool
  | [] => isPrefixChars needle []
  | c :: t => isPrefixChars needle (c :: t) || occursIn needle t

/-- Does the SQL text `query` mention the table name `tbl`? -/
def usesTable (query : String) (tbl : String) : Bool :=
  occursIn tbl.data query.data

/-! ## Prediction service (`app/api/prediction/service.py`) -/

/-- Python `round(x, 2)`, modelled as rounding to the nearest multiple of
1/100 (ties resolved by `round`; the claims proved below do not depend on
the tie-breaking direction). -/
def round2 (q : ℚ) : ℚ := ((round (q * 100) : ℤ) : ℚ) / 100

/-- `calculate_predicted_points` from `app/api/prediction/service.py`:
with no data (`games_played == 0 or minutes < 90`) it returns
`max(form * 1.0, 2.0)`; otherwise a weighted sum of form, points per 90,
season average and goal threat, scaled by a position multiplier, clamped
to `[2.0, 15.0]` and rounded to 2 decimals. -/
def calculate_predicted_points (total_points : Int) (minutes : Int)
    (form : ℚ) (goals : Int) (assists : Int) (position : String)
    (games_played : Int) : ℚ :=
  if games_played = 0 ∨ minutes < 90 then
    max (form * 1.0) 2.0
  else
    let pts_per_90 : ℚ :=
      if 0 < minutes then (total_points : ℚ) / ((minutes : ℚ) / 90) else 0
    let avg_per_game : ℚ :=
      if 0 < games_played then (total_points : ℚ) / (games_played : ℚ) else 0
    let position_multiplier : ℚ :=
      if position = "GKP" then 0.9
      else if position = "DEF" then 0.95
      else if position = "MID" then 1.0
      else if position = "FWD" then 1.05
      else 1.0
    let predicted :=
      (form * 0.40 + pts_per_90 * 0.30 + avg_per_game * 0.20 +
        ((goals : ℚ) * 0.5 + (assists : ℚ) * 0.3) * 0.10) *
        position_multiplier
    round2 (max 2.0 (min predicted 15.0))

/-- A row of the `player_predicted_points` table as seen by the budget
optimizer (cost in millions and predicted points). -/
structure Candidate where
  now_cost : ℚ
  predicted_points : ℚ
deriving DecidableEq, Repr

/-- The inner selection loop of `get_budget_optimized_squad` for one
position: walk the query results, stop once `count` players are selected,
and take a player only when the running total stays within budget. -/
def selectPlayers (max_budget : ℚ) (count : Nat) :
    List Candidate → ℚ → Nat → List Candidate × ℚ
  | [], total_cost, _ => ([], total_cost)
  | c :: rest, total_cost, selected =>
    if count ≤ selected then ([], total_cost)
    else if total_cost + c.now_cost ≤ max_budget then
      let r := selectPlayers max_budget count rest (total_cost + c.now_cost)
        (selected + 1)
      (c :: r.1, r.2)
    else selectPlayers max_budget count rest total_cost selected

/-- The per-position database query: all `player_predicted_points` rows of
that position (in the query's ORDER BY order, supplied by `db`), filtered
by `now_cost <= max_per_player * 1.5` and truncated by `LIMIT count * 3`. -/
def positionQuery (db : String → List Candidate) (position : String)
    (max_per_player : ℚ) (count : Nat) : List Candidate :=
  ((db position).filter (fun c => c.now_cost ≤ max_per_player * 1.5)).take
    (count * 3)

/-- `parts = formation.split("-")`. -/
def splitDashAux : List Char → List Char → List String
  | [], acc => [⟨acc.reverse⟩]
  | c :: rest, acc =>
    if c = '-' then (⟨acc.reverse⟩ : String) :: splitDashAux rest []
    else splitDashAux rest (c :: acc)

def splitDash (s : String) : List String := splitDashAux s.data []

/-- Formation parsing in `get_budget_optimized_squad`: a split that does
not give exactly 3 parts falls back to `[3, 4, 3]`; `int()` failing on a
part is an uncaught `ValueError` (`none`). -/
def parseFormation (formation : String) : Option (Nat × Nat × Nat) :=
  match splitDash formation with
  | [a, b, c] =>
    match pyInt a, pyInt b, pyInt c with
    | some d, some m, some f => some (d, m, f)
    | _, _, _ => none
  | _ => some (3, 4, 3)

structure SquadResult where
  gkps : List Candidate
  defs : List Candidate
  mids : List Candidate
  fwds : List Candidate
  total_cost : ℚ
deriving DecidableEq, Repr

/-- One iteration of the position loop: compute the per-player budget from
the remaining budget, run the query, and select greedily. -/
def positionStep (db : String → List Candidate) (max_budget : ℚ)
    (position : String) (count : Nat) (total_cost : ℚ) :
    List Candidate × ℚ :=
  let remaining_budget := max_budget - total_cost
  let max_per_player := remaining_budget / ((max count 1 : Nat) : ℚ)
  selectPlayers max_budget count
    (positionQuery db position max_per_player count) total_cost 0

/-- `get_budget_optimized_squad(max_budget, formation)`: positions are
processed in dict order GKP (always 1 slot), DEF, MID, FWD, threading the
running total cost. -/
def get_budget_optimized_squad (db : String → List Candidate)
    (max_budget : ℚ) (formation : String) : Option SquadResult :=
  match parseFormation formation with
  | none => none
  | some (d, m, f) =>
    let g := positionStep db max_budget "GKP" 1 0
    let de := positionStep db max_budget "DEF" d g.2
    let mi := positionStep db max_budget "MID" m de.2
    let fw := positionStep db max_budget "FWD" f mi.2
    some ⟨g.1, de.1, mi.1, fw.1, fw.2⟩

def squadCosts (s : SquadResult) : ℚ :=
  ((s.gkps ++ s.defs ++ s.mids ++ s.fwds).map Candidate.now_cost).sum

/-! ## Helper lemmas -/

theorem mem_addCols (c : String) (ks : List String) :
    ∀ acc, c ∈ addCols acc ks ↔ c ∈ acc ∨ c ∈ ks := by
  induction ks with
  | nil => intro acc; simp [addCols]
  | cons k ks ih =>
    intro acc
    show c ∈ addCols (if k ∈ acc then acc else acc ++ [k]) ks ↔ _
    by_cases hk : k ∈ acc
    · simp only [if_pos hk, ih]
      constructor
      · rintro (h | h)
        · exact Or.inl h
        · exact Or.inr (List.mem_cons_of_mem _ h)
      · rintro (h | h)
        · exact Or.inl h
        · rcases List.mem_cons.mp h with rfl | h
          · exact Or.inl hk
          · exact Or.inr h
    · simp only [if_neg hk, ih, List.mem_append, List.mem_singleton,
        List.mem_cons]
      tauto

theorem frameColumns_pair (r1 r2 : List (String × Json))
    (h : r1.map Prod.fst = r2.map Prod.fst) (c : String) :
    c ∈ frameColumns [r1, r2] ↔ c ∈ r1.map Prod.fst := by
  show c ∈ addCols (addCols [] (r1.map Prod.fst)) (r2.map Prod.fst) ↔ _
  rw [← h, mem_addCols, mem_addCols]
  simp

/-! ## Claim theorems -/

/-- C10: `flatten_json` produces no output entry for a key whose value is
an empty dict or an empty list; in particular
`flatten_json({"a": {}, "b": []})` is the empty mapping, and an empty dict
or list flattens to nothing under any parent key and separator. -/
theorem flatten_json_drops_empty_containers :
    flatten_json (.obj [("a", .obj []), ("b", .arr [])]) "" "." = [] ∧
    (∀ parent_key sep, flatten_json (.obj []) parent_key sep = [] ∧
      flatten_json (.arr []) parent_key sep = []) :=
  ⟨rfl, fun _ _ => ⟨rfl, rfl⟩⟩

/-- C9: `flatten_json({"a": {"b": [1, 2]}})` is exactly
`{"a.b.0": 1, "a.b.1": 2}`; `json_to_dataframe` on a list of two JSON
objects with identical flattened key structure yields a two-row frame
whose column set equals the flattened key set of either object; and on
any input that is neither a dict nor a list it raises
`ValueError("Unsupported JSON structure")`. -/
theorem flatten_json_roundtrip :
    flatten_json (.obj [("a", .obj [("b", .arr [.num 1, .num 2])])]) "" "."
        = [("a.b.0", .num 1), ("a.b.1", .num 2)] ∧
    (∀ o1 o2 : Json,
      (flatten_json o1 "" ".").map Prod.fst
          = (flatten_json o2 "" ".").map Prod.fst →
      ∃ fr : Frame, json_to_dataframe (.arr [o1, o2]) = .ok fr ∧
        fr.rows.length = 2 ∧
        (∀ c, c ∈ fr.columns ↔ c ∈ (flatten_json o1 "" ".").map Prod.fst)) ∧
    (∀ s, json_to_dataframe (.str s) = .error "Unsupported JSON structure") ∧
    (∀ n, json_to_dataframe (.num n) = .error "Unsupported JSON structure") ∧
    (∀ b, json_to_dataframe (.boolean b)
        = .error "Unsupported JSON structure") ∧
    json_to_dataframe .null = .error "Unsupported JSON structure" := by
  refine ⟨rfl, ?_, fun _ => rfl, fun _ => rfl, fun _ => rfl, rfl⟩
  intro o1 o2 h
  refine ⟨⟨frameColumns [flatten_json o1 "" ".", flatten_json o2 "" "."],
    [flatten_json o1 "" ".", flatten_json o2 "" "."]⟩, rfl, rfl, ?_⟩
  exact frameColumns_pair _ _ h

/-- Witness for C9 at two identical one-key objects and a string input. -/
theorem flatten_json_roundtrip_witness :
    (∃ fr : Frame,
      json_to_dataframe
          (.arr [.obj [("x", .num 1)], .obj [("x", .num 1)]]) = .ok fr ∧
      fr.rows.length = 2 ∧
      (∀ c, c ∈ fr.columns ↔
        c ∈ (flatten_json (.obj [("x", .num 1)]) "" ".").map Prod.fst)) ∧
    json_to_dataframe (.str "q") = .error "Unsupported JSON structure" :=
  ⟨flatten_json_roundtrip.2.1 (.obj [("x", .num 1)]) (.obj [("x", .num 1)])
      rfl,
   flatten_json_roundtrip.2.2.1 "q"⟩

/-- C8: with `retries=3, backoff=2.0, jitter=True`, an operation failing on
its first two invocations and succeeding on the third runs exactly three
times, the two backoff sleeps are `2 + j₁ ∈ [2,3)` and `4 + j₂ ∈ [4,5)`
(`backoff^attempt` plus a jitter draw in `[0,1)`), and the third
invocation's value is returned unchanged; an operation failing on every
invocation runs three times, sleeps only twice, and the last exception is
re-raised. -/
theorem retry_request_schedule (E A : Type) (op : Nat → Except E A) (a : A)
    (e1 e2 : E) (jd : Nat → ℚ)
    (h1 : op 1 = .error e1) (h2 : op 2 = .error e2) (h3 : op 3 = .ok a)
    (hj1 : 0 ≤ jd 1) (hj1' : jd 1 < 1) (hj2 : 0 ≤ jd 2) (hj2' : jd 2 < 1) :
    (retry_request E A op 3 2 true jd
        = ⟨.ok a, 3, [2 + jd 1, 4 + jd 2]⟩ ∧
      2 ≤ 2 + jd 1 ∧ 2 + jd 1 < 3 ∧ 4 ≤ 4 + jd 2 ∧ 4 + jd 2 < 5) ∧
    (∀ (opf : Nat → Except E A) (errs : Nat → E),
      (∀ i, opf i = .error (errs i)) →
      retry_request E A opf 3 2 true jd
        = ⟨.err (errs 3), 3, [2 + jd 1, 4 + jd 2]⟩) := by
  constructor
  · refine ⟨?_, by linarith, by linarith, by linarith, by linarith⟩
    simp only [retry_request, retryAux, h1, h2, h3]
    norm_num
  · intro opf errs hf
    simp only [retry_request, retryAux, hf 1, hf 2, hf 3]
    norm_num

/-- Witness for C8: two-failures-then-success and always-failing operations
with jitter draws of 1/2. -/
theorem retry_request_schedule_witness :
    retry_request Nat Nat (fun i => if i = 3 then .ok 7 else .error i) 3 2
        true (fun _ => 1/2)
      = ⟨.ok 7, 3, [2 + 1/2, 4 + 1/2]⟩ ∧
    retry_request Nat Nat (fun i => .error i) 3 2 true (fun _ => 1/2)
      = ⟨.err 3, 3, [2 + 1/2, 4 + 1/2]⟩ :=
  ⟨(retry_request_schedule Nat Nat (fun i => if i = 3 then .ok 7 else .error i)
      7 1 2 (fun _ => 1/2) rfl rfl rfl (by norm_num) (by norm_num)
      (by norm_num) (by norm_num)).1.1,
   (retry_request_schedule Nat Nat (fun i => if i = 3 then .ok 7 else .error i)
      7 1 2 (fun _ => 1/2) rfl rfl rfl (by norm_num) (by norm_num)
      (by norm_num) (by norm_num)).2 (fun i => .error i) (fun i => i)
      (fun _ => rfl)⟩

/-- C2 (divergence witness): `safe_get` on a URL that answers 404 on every
attempt does NOT propagate the `FPLClientError` immediately — because
`RETRYABLE_EXCEPTIONS` ends with bare `Exception`, the client error is
caught by `retry_request`, the GET runs three times, and two backoff
sleeps elapse before the error is re-raised. -/
theorem safe_get_retries_client_error :
    safe_get (fun _ => 404) 3 2 (fun _ => 1/2)
      = ⟨.err (.clientError 404), 3, [2 + 1/2, 4 + 1/2]⟩ := by
  simp only [safe_get, retry_request, retryAux, _raw_get]
  norm_num

theorem round2_bounds {x : ℚ} (hlo : 2 ≤ x) (hhi : x ≤ 15) :
    2 ≤ round2 x ∧ round2 x ≤ 15 := by
  have h1 : x * 100 - 1 / 2 < ((round (x * 100) : ℤ) : ℚ) :=
    sub_half_lt_round (x * 100)
  have h2 : ((round (x * 100) : ℤ) : ℚ) ≤ x * 100 + 1 / 2 :=
    round_le_add_half (x * 100)
  have hi1 : (200 : ℤ) ≤ round (x * 100) := by
    have : (199 : ℚ) < ((round (x * 100) : ℤ) : ℚ) := by linarith
    have : (199 : ℤ) < round (x * 100) := by exact_mod_cast this
    omega
  have hi2 : round (x * 100) ≤ 1500 := by
    have : ((round (x * 100) : ℤ) : ℚ) < 1501 := by linarith
    have : round (x * 100) < 1501 := by exact_mod_cast this
    omega
  have hc1 : (200 : ℚ) ≤ ((round (x * 100) : ℤ) : ℚ) := by exact_mod_cast hi1
  have hc2 : ((round (x * 100) : ℤ) : ℚ) ≤ 1500 := by exact_mod_cast hi2
  unfold round2
  constructor <;> linarith

theorem clamp_bounds (p : ℚ) :
    2 ≤ round2 (max 2.0 (min p 15.0)) ∧ round2 (max 2.0 (min p 15.0)) ≤ 15 := by
  apply round2_bounds
  · calc (2 : ℚ) ≤ 2.0 := by norm_num
    _ ≤ max 2.0 (min p 15.0) := le_max_left _ _
  · exact max_le (by norm_num)
      (le_trans (min_le_right _ _) (by norm_num))

/-- C1 (counterexample): a player with zero minutes and form 20 gets
prediction `max(20, 2) = 20`, outside `[2.0, 15.0]` — the zero-data
fallback is not clamped to 15. -/
theorem calculate_predicted_points_escapes_bounds :
    calculate_predicted_points 0 0 20 0 0 "MID" 0 = 20 ∧
    ¬ calculate_predicted_points 0 0 20 0 0 "MID" 0 ≤ 15 := by
  constructor
  · norm_num [calculate_predicted_points]
  · norm_num [calculate_predicted_points]

/-- C1 (amended): `calculate_predicted_points` always returns at least 2.0;
whenever `minutes < 90` or `games_played = 0` it returns `max(form, 2.0)`
(which exceeds 15.0 when `form` does); in every other case the result lies
in `[2.0, 15.0]`. -/
theorem calculate_predicted_points_bounds (total_points minutes : Int)
    (form : ℚ) (goals assists : Int) (position : String)
    (games_played : Int) :
    (games_played = 0 ∨ minutes < 90 →
      calculate_predicted_points total_points minutes form goals assists
        position games_played = max form 2) ∧
    (games_played ≠ 0 → 90 ≤ minutes →
      2 ≤ calculate_predicted_points total_points minutes form goals assists
          position games_played ∧
      calculate_predicted_points total_points minutes form goals assists
          position games_played ≤ 15) ∧
    2 ≤ calculate_predicted_points total_points minutes form goals assists
        position games_played := by
  unfold calculate_predicted_points
  by_cases h : games_played = 0 ∨ minutes < 90
  · rw [if_pos h]
    refine ⟨fun _ => by norm_num, fun hg hm => ?_, ?_⟩
    · exact absurd h (by push_neg; exact ⟨hg, by omega⟩)
    · norm_num [le_max_iff]
  · rw [if_neg h]
    exact ⟨fun hc => absurd hc h, fun _ _ => clamp_bounds _, (clamp_bounds _).1⟩

/-- Witness for C1 (amended): a zero-minutes player with form 7.5, and a
regular forward whose prediction is clamped into `[2, 15]`. -/
theorem calculate_predicted_points_bounds_witness :
    calculate_predicted_points 10 0 (15/2) 0 0 "MID" 0 = max (15/2) 2 ∧
    (2 ≤ calculate_predicted_points 100 900 5 10 3 "FWD" 10 ∧
      calculate_predicted_points 100 900 5 10 3 "FWD" 10 ≤ 15) :=
  ⟨(calculate_predicted_points_bounds 10 0 (15/2) 0 0 "MID" 0).1
      (Or.inr (by norm_num)),
   (calculate_predicted_points_bounds 100 900 5 10 3 "FWD" 10).2.1
      (by norm_num) (by norm_num)⟩

theorem selectPlayers_spec (B : ℚ) (count : Nat) (cs : List Candidate) :
    ∀ (total : ℚ) (sel : Nat),
      (selectPlayers B count cs total sel).2
        = total
          + (((selectPlayers B count cs total sel).1).map
              Candidate.now_cost).sum ∧
      (total ≤ B → (selectPlayers B count cs total sel).2 ≤ B) ∧
      (selectPlayers B count cs total sel).1.length ≤ count - sel := by
  induction cs with
  | nil => intro total sel; simp [selectPlayers]
  | cons c rest ih =>
    intro total sel
    by_cases hsel : count ≤ sel
    · simp [selectPlayers, hsel]
    · by_cases hb : total + c.now_cost ≤ B
      · have h := ih (total + c.now_cost) (sel + 1)
        simp only [selectPlayers, if_neg hsel, if_pos hb]
        refine ⟨?_, fun _ => h.2.1 hb, ?_⟩
        · simp only [List.map_cons, List.sum_cons]
          rw [h.1]; ring
        · have := h.2.2
          simp only [List.length_cons]
          omega
      · have h := ih total sel
        simpa only [selectPlayers, if_neg hsel, if_neg hb] using h

theorem positionStep_spec (db : String → List Candidate) (B : ℚ)
    (pos : String) (count : Nat) (total : ℚ) :
    (positionStep db B pos count total).2
      = total
        + (((positionStep db B pos count total).1).map Candidate.now_cost).sum ∧
    (total ≤ B → (positionStep db B pos count total).2 ≤ B) ∧
    (positionStep db B pos count total).1.length ≤ count := by
  unfold positionStep
  simpa using selectPlayers_spec B count
    (positionQuery db pos ((B - total) / ((max count 1 : Nat) : ℚ)) count)
    total 0

/-- C7: for every database state, `get_budget_optimized_squad(max_budget=
100.0, formation="3-4-3")` returns a squad whose summed player costs never
exceed 100.0 and which has at most 1 goalkeeper, 3 defenders,
4 midfielders and 3 forwards. -/
theorem get_budget_optimized_squad_feasible (db : String → List Candidate) :
    ∃ s : SquadResult,
      get_budget_optimized_squad db 100 "3-4-3" = some s ∧
      squadCosts s ≤ 100 ∧
      s.gkps.length ≤ 1 ∧ s.defs.length ≤ 3 ∧ s.mids.length ≤ 4 ∧
      s.fwds.length ≤ 3 := by
  have hparse : parseFormation "3-4-3" = some (3, 4, 3) := rfl
  obtain ⟨hga, hgb, hgc⟩ := positionStep_spec db 100 "GKP" 1 0
  set g := positionStep db 100 "GKP" 1 0 with hgdef
  obtain ⟨hda, hdb, hdc⟩ := positionStep_spec db 100 "DEF" 3 g.2
  set de := positionStep db 100 "DEF" 3 g.2 with hddef
  obtain ⟨hma, hmb, hmc⟩ := positionStep_spec db 100 "MID" 4 de.2
  set mi := positionStep db 100 "MID" 4 de.2 with hmdef
  obtain ⟨hfa, hfb, hfc⟩ := positionStep_spec db 100 "FWD" 3 mi.2
  set fw := positionStep db 100 "FWD" 3 mi.2 with hfdef
  refine ⟨⟨g.1, de.1, mi.1, fw.1, fw.2⟩, ?_, ?_, hgc, hdc, hmc, hfc⟩
  · rw [get_budget_optimized_squad, hparse]
  · have hfin : fw.2 ≤ 100 :=
      hfb (hmb (hdb (hgb (by norm_num))))
    have : squadCosts ⟨g.1, de.1, mi.1, fw.1, fw.2⟩
        = ((g.1.map Candidate.now_cost).sum
            + (de.1.map Candidate.now_cost).sum)
          + ((mi.1.map Candidate.now_cost).sum
            + (fw.1.map Candidate.now_cost).sum) := by
      simp [squadCosts, List.map_append, List.sum_append]
      ring
    rw [this]
    linarith [hga, hda, hma, hfa]

/-- C6: the 2018-19 schema has `supports_teams = false` and
`supports_standings = false`, and for every season whose schema lacks
standings support, `get_league_standings` returns the empty standings
list (and, returning before the fixtures aggregation `rest` runs, can
neither raise nor produce a non-empty list). -/
theorem standings_guard :
    (get_season_schema "2018-19").supports_teams = false ∧
    (get_season_schema "2018-19").supports_standings = false ∧
    ∀ (rest : SeasonSchema → StandingsResponse) (season : String),
      (get_season_schema season).supports_standings = false →
      get_league_standings rest season = ⟨season, []⟩ := by
  refine ⟨by decide, by decide, ?_⟩
  intro rest season h
  simp [get_league_standings, h]

/-- Witness for C6 at season 2018-19 with a `rest` that would return a
non-empty table if it were ever consulted. -/
theorem standings_guard_witness :
    (get_season_schema "2018-19").supports_standings = false ∧
    get_league_standings (fun sch => ⟨sch.name, [⟨"Arsenal", 90⟩]⟩)
      "2018-19" = ⟨"2018-19", []⟩ :=
  ⟨by decide,
   standings_guard.2.2 (fun sch => ⟨sch.name, [⟨"Arsenal", 90⟩]⟩)
     "2018-19" (by decide)⟩

set_option maxRecDepth 40000 in
/-- C5 (counterexample): at season 2023-24 (which supports standings), the
standings SQL does not mention `clean_team_season_metrics` — it aggregates
wins/draws/losses/goals/points from the schema's fixtures table at request
time. -/
theorem standings_query_not_premerged :
    ¬(usesTable (standings_fpl_query (get_season_schema "2023-24"))
        "clean_team_season_metrics" = true ∧
      usesTable (standings_fpl_query (get_season_schema "2023-24"))
        ((get_season_schema "2023-24").table_fixtures) = false) := by
  decide

set_option maxRecDepth 40000 in
/-- C5 (amended): for every season whose schema supports standings,
`get_league_standings` builds its standings query over the schema's
fixtures table (recomputing W/D/L/goals/points from finished fixtures at
request time) and never consults `clean_team_season_metrics`. -/
theorem standings_query_uses_fixtures (season : String)
    (h : (get_season_schema season).supports_standings = true) :
    usesTable (standings_fpl_query (get_season_schema season))
      ((get_season_schema season).table_fixtures) = true ∧
    usesTable (standings_fpl_query (get_season_schema season))
      "clean_team_season_metrics" = false := by
  by_cases hc : season = CURRENT_SEASON
  · subst hc; decide
  · have hmem : season ∈ SEASONS_WITH_TEAMS := by
      rw [get_season_schema, if_pos hc] at h
      simpa using h
    simp only [SEASONS_WITH_TEAMS, List.mem_cons, List.not_mem_nil,
      or_false] at hmem
    rcases hmem with rfl | rfl | rfl | rfl | rfl | rfl <;> decide

/-- Witness for C5 (amended) at season 2023-24. -/
theorem standings_query_uses_fixtures_witness :
    usesTable (standings_fpl_query (get_season_schema "2023-24"))
      ((get_season_schema "2023-24").table_fixtures) = true ∧
    usesTable (standings_fpl_query (get_season_schema "2023-24"))
      "clean_team_season_metrics" = false :=
  standings_query_uses_fixtures "2023-24" (by decide)

/-- C4 (counterexample): on a bootstrap-static payload whose events appear
as id 2 before id 1 (both finished), `get_available_gameweeks` returns
`[2, 1]` — the payload order, not ascending order. -/
theorem get_available_gameweeks_unsorted :
    get_available_gameweeks
        (.ok (some [⟨2, true, false⟩, ⟨1, true, false⟩])) = .ok [2, 1] ∧
    ¬ List.Pairwise (· ≤ ·) [2, 1] := by
  refine ⟨rfl, ?_⟩
  decide

/-- C4 (amended): `get_available_gameweeks` returns the ids of the events
whose `finished` or `data_checked` flag is true, in payload order (hence
ascending whenever the payload lists events in ascending id order), and
wraps any request or payload-access failure as `GameweekDiscoveryError`. -/
theorem get_available_gameweeks_spec :
    (∀ u, get_available_gameweeks (.error u) = .error .couldNotLoad) ∧
    get_available_gameweeks (.ok none) = .error .couldNotLoad ∧
    (∀ events, get_available_gameweeks (.ok (some events)) =
      .ok ((events.filter
        (fun e => e.finished || e.data_checked)).map Event.id)) ∧
    (∀ events, List.Pairwise (· ≤ ·) (events.map Event.id) →
      ∃ ids, get_available_gameweeks (.ok (some events)) = .ok ids ∧
        List.Pairwise (· ≤ ·) ids) := by
  refine ⟨fun _ => rfl, rfl, fun _ => rfl, fun events h => ⟨_, rfl, ?_⟩⟩
  have hsub : List.Sublist
      ((events.filter (fun e => e.finished || e.data_checked)).map Event.id)
      (events.map Event.id) :=
    List.Sublist.map Event.id (List.filter_sublist events)
  exact h.sublist hsub

/-- Witness for C4 (amended): an ascending two-event payload with only the
first event finished. -/
theorem get_available_gameweeks_spec_witness :
    ∃ ids, get_available_gameweeks
        (.ok (some [⟨1, true, false⟩, ⟨2, false, false⟩])) = .ok ids ∧
      List.Pairwise (· ≤ ·) ids :=
  get_available_gameweeks_spec.2.2.2
    [⟨1, true, false⟩, ⟨2, false, false⟩] (by decide)

theorem fetchLoop_fst (ok : Nat → Bool) :
    ∀ (l : List Nat) (cur : Nat), (fetchLoop ok l cur).1 = l.takeWhile ok := by
  intro l
  induction l with
  | nil => intro cur; rfl
  | cons e rest ih =>
    intro cur
    cases h : ok e with
    | true => simp [fetchLoop, h, List.takeWhile_cons, ih]
    | false => simp [fetchLoop, h, List.takeWhile_cons]

theorem fetchLoop_snd (ok : Nat → Bool) :
    ∀ (l : List Nat) (cur : Nat),
      (fetchLoop ok l cur).2 = (l.takeWhile ok).getLastD cur := by
  intro l
  induction l with
  | nil => intro cur; rfl
  | cons e rest ih =>
    intro cur
    cases h : ok e with
    | true =>
      have hstep : (fetchLoop ok (e :: rest) cur).2
          = (fetchLoop ok rest e).2 := by simp [fetchLoop, h]
      have htw : (e :: rest).takeWhile ok = e :: rest.takeWhile ok := by
        simp [List.takeWhile_cons, h]
      rw [hstep, ih e, htw, List.getLastD_cons]
    | false => simp [fetchLoop, h, List.takeWhile_cons]

theorem getLastD_pairwise_max :
    ∀ (ws : List Nat) (cur : Nat), List.Pairwise (· < ·) (cur :: ws) →
      ws.getLastD cur = ws.foldl max cur := by
  intro ws
  induction ws with
  | nil => intro cur _; rfl
  | cons w t ih =>
    intro cur h
    obtain ⟨h1, h2⟩ := List.pairwise_cons.mp h
    have hcw : cur < w := h1 w (List.mem_cons_self _ _)
    calc (w :: t).getLastD cur = t.getLastD w := List.getLastD_cons _ _ _
    _ = t.foldl max w := ih w h2
    _ = t.foldl max (max cur w) := by rw [max_eq_right hcw.le]
    _ = (w :: t).foldl max cur := (List.foldl_cons _ _).symm

theorem getLast?_cons_eq (a : Nat) (l : List Nat) :
    (a :: l).getLast? = some (l.getLastD a) := by
  simp [List.getLast?_cons]

theorem pairwise_cursor_filter (av : List Nat) (cur : Nat)
    (h : List.Pairwise (· < ·) av) :
    List.Pairwise (· < ·) (cur :: av.filter (fun e => cur < e)) := by
  refine List.pairwise_cons.mpr ⟨?_, h.filter _⟩
  intro e he
  exact of_decide_eq_true (List.mem_filter.mp he).2

theorem fetchLoop_lt_failed (ok : Nat → Bool) :
    ∀ (l : List Nat) (cur : Nat), List.Pairwise (· < ·) (cur :: l) →
      ∀ e ∈ l, ok e = false → (fetchLoop ok l cur).2 < e := by
  intro l
  induction l with
  | nil => intro cur _ e he; exact absurd he (List.not_mem_nil e)
  | cons t rest ih =>
    intro cur h e he hf
    obtain ⟨h1, h2⟩ := List.pairwise_cons.mp h
    cases hok : ok t with
    | true =>
      have hstep : (fetchLoop ok (t :: rest) cur).2
          = (fetchLoop ok rest t).2 := by simp [fetchLoop, hok]
      rw [hstep]
      rcases List.mem_cons.mp he with rfl | he'
      · rw [hok] at hf; cases hf
      · exact ih t h2 e he' hf
    | false =>
      have hstep : (fetchLoop ok (t :: rest) cur).2 = cur := by
        simp [fetchLoop, hok]
      rw [hstep]
      exact h1 e he

theorem run_spec (av : List Nat) (ok : Nat → Bool) (cur : Nat)
    (h : List.Pairwise (· < ·) av) :
    (fetch_new_events_run av ok cur).1
        = (av.filter (fun e => cur < e)).takeWhile ok ∧
    (fetch_new_events_run av ok cur).2
        = ((fetch_new_events_run av ok cur).1).getLastD cur ∧
    (fetch_new_events_run av ok cur).2
        = ((fetch_new_events_run av ok cur).1).foldl max cur ∧
    List.Pairwise (· < ·) (cur :: (fetch_new_events_run av ok cur).1) ∧
    (∀ e ∈ av.filter (fun e => cur < e), ok e = false →
      (fetch_new_events_run av ok cur).2 < e) := by
  have hpw : List.Pairwise (· < ·)
      (cur :: av.filter (fun e => cur < e)) := pairwise_cursor_filter av cur h
  have h1 : (fetch_new_events_run av ok cur).1
      = (av.filter (fun e => cur < e)).takeWhile ok :=
    fetchLoop_fst ok _ cur
  have hsubl : List.Sublist
      (cur :: (av.filter (fun e => cur < e)).takeWhile ok)
      (cur :: av.filter (fun e => cur < e)) :=
    List.Sublist.cons₂ cur (List.takeWhile_sublist ok)
  have hpw' : List.Pairwise (· < ·)
      (cur :: (fetch_new_events_run av ok cur).1) := by
    rw [h1]; exact hpw.sublist hsubl
  have h2 : (fetch_new_events_run av ok cur).2
      = ((fetch_new_events_run av ok cur).1).getLastD cur := by
    rw [h1]; exact fetchLoop_snd ok _ cur
  refine ⟨h1, h2, ?_, hpw', fetchLoop_lt_failed ok _ cur hpw⟩
  rw [h2]
  exact getLastD_pairwise_max _ cur hpw'

theorem execRuns_foldl :
    ∀ (runs : List (List Nat × (Nat → Bool))) (cur : Nat),
      (∀ r ∈ runs, List.Pairwise (· < ·) r.1) →
      execRuns cur runs = (writtenRuns cur runs).foldl max cur := by
  intro runs
  induction runs with
  | nil => intro cur _; rfl
  | cons run rest ih =>
    intro cur h
    obtain ⟨av, ok⟩ := run
    have hav : List.Pairwise (· < ·) av := h (av, ok) (List.mem_cons_self _ _)
    have hrest : ∀ r ∈ rest, List.Pairwise (· < ·) r.1 :=
      fun r hr => h r (List.mem_cons_of_mem _ hr)
    have hstep : execRuns cur ((av, ok) :: rest)
        = execRuns (fetch_new_events_run av ok cur).2 rest := rfl
    have hw : writtenRuns cur ((av, ok) :: rest)
        = (fetch_new_events_run av ok cur).1
          ++ writtenRuns (fetch_new_events_run av ok cur).2 rest := rfl
    rw [hstep, hw, ih _ hrest, List.foldl_append]
    rw [← (run_spec av ok cur hav).2.2.1]

theorem writtenRuns_chain :
    ∀ (runs : List (List Nat × (Nat → Bool))) (cur : Nat),
      (∀ r ∈ runs, List.Pairwise (· < ·) r.1) →
      List.Chain' (· ≤ ·) (cur :: writtenRuns cur runs) := by
  intro runs
  induction runs with
  | nil => intro cur _; simp [writtenRuns]
  | cons run rest ih =>
    intro cur h
    obtain ⟨av, ok⟩ := run
    have hav : List.Pairwise (· < ·) av := h (av, ok) (List.mem_cons_self _ _)
    have hrest : ∀ r ∈ rest, List.Pairwise (· < ·) r.1 :=
      fun r hr => h r (List.mem_cons_of_mem _ hr)
    obtain ⟨_, hlast, _, hpw, _⟩ := run_spec av ok cur hav
    have ihfin := ih (fetch_new_events_run av ok cur).2 hrest
    have hw : writtenRuns cur ((av, ok) :: rest)
        = (fetch_new_events_run av ok cur).1
          ++ writtenRuns (fetch_new_events_run av ok cur).2 rest := rfl
    rw [hw, ← List.cons_append]
    refine List.Chain'.append ?_ ihfin.tail ?_
    · exact List.chain'_iff_pairwise.mpr (hpw.imp fun hab => le_of_lt hab)
    · intro x hx y hy
      rw [getLast?_cons_eq, Option.mem_some_iff] at hx
      have hfx : x = (fetch_new_events_run av ok cur).2 := by
        rw [hlast, hx]
      rw [hfx]
      exact (List.chain'_cons'.mp ihfin).1 y hy

/-- C3 (counterexample): a single run whose discovery list arrives as
`[3, 1]` (all fetches succeeding) persists the cursor values 3 then 1: the
persisted cursor decreases mid-run and the final `load_last_event` value
is 1, not the highest fetched gameweek 3. -/
theorem cursor_regression_example :
    fetch_new_events_run [3, 1] (fun _ => true) 0 = ([3, 1], 1) ∧
    ¬ List.Pairwise (· ≤ ·)
      (0 :: (fetch_new_events_run [3, 1] (fun _ => true) 0).1) ∧
    (fetch_new_events_run [3, 1] (fun _ => true) 0).2 ≠ 3 := by
  refine ⟨rfl, by decide, by decide⟩

/-- C3 (amended): provided each run's discovered gameweek list is strictly
ascending (as `bootstrap-static` lists events), after any sequence of
incremental runs `load_last_event` equals the maximum gameweek
successfully fetched and written (0 when none); the persisted cursor
values never decrease during or across runs; within a run the cursor is
saved once after each successfully fetched gameweek, in order (the
successful prefix of `to_fetch`); and it is never advanced to or past a
gameweek of that run whose fetch/write failed. -/
theorem cursor_monotonicity (runs : List (List Nat × (Nat → Bool)))
    (h : ∀ r ∈ runs, List.Pairwise (· < ·) r.1) :
    execRuns 0 runs = (writtenRuns 0 runs).foldl max 0 ∧
    List.Chain' (· ≤ ·) (0 :: writtenRuns 0 runs) ∧
    (∀ (available : List Nat) (ok : Nat → Bool) (last : Nat),
      List.Pairwise (· < ·) available →
      (fetch_new_events_run available ok last).1
          = (available.filter (fun e => last < e)).takeWhile ok ∧
      (∀ e ∈ available.filter (fun e => last < e), ok e = false →
        (fetch_new_events_run available ok last).2 < e)) :=
  ⟨execRuns_foldl runs 0 h, writtenRuns_chain runs 0 h,
   fun av ok last hp =>
    ⟨(run_spec av ok last hp).1, (run_spec av ok last hp).2.2.2.2⟩⟩

/-- Witness for C3 (amended): two runs, the first failing at gameweek 2. -/
theorem cursor_monotonicity_witness :
    execRuns 0 [([1, 2, 3], fun e => decide (e ≠ 2)),
        ([2, 3, 4], fun _ => true)]
      = (writtenRuns 0 [([1, 2, 3], fun e => decide (e ≠ 2)),
          ([2, 3, 4], fun _ => true)]).foldl max 0 ∧
    List.Chain' (· ≤ ·)
      (0 :: writtenRuns 0 [([1, 2, 3], fun e => decide (e ≠ 2)),
        ([2, 3, 4], fun _ => true)]) ∧
    (fetch_new_events_run [1, 2, 3] (fun e => decide (e ≠ 2)) 0).1
      = ([1, 2, 3].filter (fun e => 0 < e)).takeWhile
          (fun e => decide (e ≠ 2)) ∧
    (fetch_new_events_run [1, 2, 3] (fun e => decide (e ≠ 2)) 0).2 < 2 := by
  have hp : ∀ r ∈ [(([1, 2, 3] : List Nat), fun e => decide (e ≠ 2)),
      (([2, 3, 4] : List Nat), fun _ => true)],
      List.Pairwise (· < ·) r.1 := by
    intro r hr
    rcases List.mem_cons.mp hr with rfl | hr
    · decide
    · rcases List.mem_cons.mp hr with rfl | hr
      · decide
      · exact absurd hr (List.not_mem_nil r)
  have T := cursor_monotonicity
    [([1, 2, 3], fun e => decide (e ≠ 2)), ([2, 3, 4], fun _ => true)] hp
  refine ⟨T.1, T.2.1, ?_, ?_⟩
  · exact (T.2.2 [1, 2, 3] (fun e => decide (e ≠ 2)) 0 (by decide)).1
  · exact (T.2.2 [1, 2, 3] (fun e => decide (e ≠ 2)) 0 (by decide)).2
      2 (by decide) (by decide)

end FPL
